import Mathlib

/-!
Verification of the statistical analysis core (Stats module).

The JavaScript source computes over IEEE doubles; this development embeds it
in two layers.  The first is the real-number idealization — arithmetic is
exact and division is Lean's total division — used for the structural and
refinement properties that do not depend on non-finite values.  The second is
a NaN-aware double model (JSNum: a finite real, the two infinities, or NaN)
in which the operations follow the JavaScript semantics of non-finite values
exactly (0/0 is NaN, NaN propagates, NaN === 0 is false, Math.max with NaN is
NaN); it is used for the functions whose source takes NaN paths on valid
inputs, which the total-division idealization would silently define away.
Lengths of arrays become natural numbers cast into the reals exactly where
the source uses them as numbers.
-/

noncomputable section

namespace Stats

/-- Mean of a sample; 0 for the empty sample (source: Stats.mean). -/
def mean (arr : List ℝ) : ℝ :=
  if arr.length = 0 then 0 else arr.sum / (arr.length : ℝ)

/-- Sample variance with Bessel correction; 0 when n < 2 (source: Stats.variance). -/
def variance (arr : List ℝ) : ℝ :=
  if arr.length < 2 then 0
  else
    let m := mean arr
    (arr.map (fun val => (val - m) ^ 2)).sum / ((arr.length : ℝ) - 1)

/-- Standard deviation (source: Stats.stdDev). -/
def stdDev (arr : List ℝ) : ℝ := Real.sqrt (variance arr)

/-- Standard error of the mean (source: Stats.standardError). -/
def standardError (arr : List ℝ) : ℝ := stdDev arr / Real.sqrt (arr.length : ℝ)

/-- The nine Lanczos coefficients from the source (source: Stats.lnGamma). -/
def lanczosC : List ℝ :=
  [0.99999999999980993, 676.5203681218851, -1259.1392167224028, 771.32342877765313,
   -176.61502916214059, 12.507343278686905, -0.13857109526572012, 9.9843695780195716e-6,
   1.5056327351493116e-7]

/-- The accumulation loop of the Lanczos approximation: x starts at c[0] and the
loop adds c[i]/(z+i) for i = 1..8 (g = 7, so the loop bound is g+2 = 9). -/
def lanczosSum (z : ℝ) : ℝ :=
  lanczosC.headD 0 + ((List.range 8).map (fun i => lanczosC.getD (i + 1) 0 / (z + ((i + 1 : ℕ) : ℝ)))).sum

/-- The z >= 0.5 branch of lnGamma: shift z by 1, accumulate the rational part,
and close with the Stirling-like form (source: Stats.lnGamma, else branch). -/
def lnGammaMain (z0 : ℝ) : ℝ :=
  let z := z0 - 1
  let x := lanczosSum z
  let t := z + 7 + 0.5
  0.5 * Real.log (2 * Real.pi) + (z + 0.5) * Real.log t - t + Real.log x

/-- Log-gamma, Lanczos approximation (source: Stats.lnGamma).  For z < 0.5 the
source recurses via the reflection identity on 1 - z; since 1 - z > 0.5 that
call immediately takes the non-recursive branch, which is lnGammaMain. -/
def lnGamma (z : ℝ) : ℝ :=
  if z < 0.5 then Real.log (Real.pi / Real.sin (Real.pi * z)) - lnGammaMain (1 - z)
  else lnGammaMain z

/-- The continued-fraction numerator for iteration m of Lentz's method
(source: Stats.incompleteBeta, loop body).  The source computes k = m/2 for
even m and k = (m-1)/2 for odd m; both are exact integer divisions. -/
def lentzNumerator (a b x : ℝ) (m : ℕ) : ℝ :=
  if m = 0 then 1
  else if m % 2 = 0 then
    let k : ℝ := ((m / 2 : ℕ) : ℝ)
    k * (b - k) * x / ((a + 2 * k - 1) * (a + 2 * k))
  else
    let k : ℝ := (((m - 1) / 2 : ℕ) : ℝ);
    -((a + k) * (a + b + k) * x) / ((a + 2 * k) * (a + 2 * k + 1))

/-- Modified Lentz iteration (source: Stats.incompleteBeta, for-loop).  The
source iterates m = 0..200 and breaks once the increment is within 1e-10 of 1;
steps counts the iterations that may still run, m is the current index, and
f, c, d are the running state.  Called with steps = 201 this performs exactly
the iterations of the source loop. -/
def lentzIter (a b x : ℝ) : ℕ → ℕ → ℝ → ℝ → ℝ → ℝ
  | 0, _, f, _, _ => f
  | steps + 1, m, f, c, d =>
    let num := lentzNumerator a b x m
    let d1 := 1 + num * d
    let d2 := if |d1| < 1e-30 then 1e-30 else d1
    let d3 := 1 / d2
    let c1 := 1 + num / c
    let c2 := if |c1| < 1e-30 then 1e-30 else c1
    let delta := c2 * d3
    let f1 := f * delta
    if |delta - 1| < 1e-10 then f1
    else lentzIter a b x steps (m + 1) f1 c2 d3

/-- The non-recursive part of the incomplete beta evaluation: the front factor
times (f - 1) where f is the Lentz continued-fraction value
(source: Stats.incompleteBeta after the complement test). -/
def incompleteBetaCore (a b x : ℝ) : ℝ :=
  let lnBeta := lnGamma a + lnGamma b - lnGamma (a + b)
  let front := Real.exp (Real.log x * a + Real.log (1 - x) * b - lnBeta) / a
  front * (lentzIter a b x 201 0 1 1 0 - 1)

/-- Incomplete beta with explicit recursion fuel for the complement identity
(source: Stats.incompleteBeta).  The source recursion is self-terminating at
depth one; the fuel makes that termination argument explicit, and at fuel 0
the complement branch falls through to the continued fraction (a case the
depth-one theorem shows is never reached from the source entry point). -/
def incompleteBetaFuel : ℕ → ℝ → ℝ → ℝ → ℝ
  | 0, a, b, x =>
    if x = 0 then 0
    else if x = 1 then 1
    else incompleteBetaCore a b x
  | fuel + 1, a, b, x =>
    if x = 0 then 0
    else if x = 1 then 1
    else if (a + 1) / (a + b + 2) < x then 1 - incompleteBetaFuel fuel b a (1 - x)
    else incompleteBetaCore a b x

/-- Incomplete beta function as called by the source: one level of complement
recursion available (source: Stats.incompleteBeta). -/
def incompleteBeta (a b x : ℝ) : ℝ := incompleteBetaFuel 1 a b x

/-- One-tailed p-value from the t-distribution via the incomplete beta
(source: Stats.tDistributionPValue). -/
def tDistributionPValue (t df : ℝ) : ℝ :=
  let x := df / (df + t * t)
  0.5 * incompleteBeta (df / 2) 0.5 x

/-- Result record of the Welch t-test (source: Stats.welchTTest return value). -/
structure TTestResult where
  t : ℝ
  df : ℝ
  pValue : ℝ

/-- Welch's two-sample t-test (source: Stats.welchTTest). -/
def welchTTest (arr1 arr2 : List ℝ) : TTestResult :=
  let n1 : ℝ := (arr1.length : ℝ)
  let n2 : ℝ := (arr2.length : ℝ)
  let mean1 := mean arr1
  let mean2 := mean arr2
  let var1 := variance arr1
  let var2 := variance arr2
  let se := Real.sqrt (var1 / n1 + var2 / n2)
  if se = 0 then ⟨0, n1 + n2 - 2, 1⟩
  else
    let t := (mean1 - mean2) / se
    let num := (var1 / n1 + var2 / n2) ^ 2
    let denom := (var1 / n1) ^ 2 / (n1 - 1) + (var2 / n2) ^ 2 / (n2 - 1)
    let df := num / denom
    let pValue := tDistributionPValue |t| df * 2
    ⟨t, df, min pValue 1⟩

/-- Modelled from the spec: the welchTTest contract as the specification words
it — standard error se = sqrt(var1/n1 + var2/n2); if se is exactly 0 the
result is t = 0, df = n1 + n2 - 2, pValue = 1; otherwise t = (mean1 - mean2)/se,
Welch-Satterthwaite degrees of freedom, and
pValue = min(1, 2 * 0.5 * incompleteBeta(df/2, 0.5, df/(df + t^2))).
Written for the refinement claim C1, to be compared with welchTTest. -/
def welchTTestSpec (arr1 arr2 : List ℝ) : TTestResult :=
  let n1 : ℝ := (arr1.length : ℝ)
  let n2 : ℝ := (arr2.length : ℝ)
  let var1 := variance arr1
  let var2 := variance arr2
  let se := Real.sqrt (var1 / n1 + var2 / n2)
  if se = 0 then ⟨0, n1 + n2 - 2, 1⟩
  else
    let t := (mean arr1 - mean arr2) / se
    let df := (var1 / n1 + var2 / n2) ^ 2 /
      ((var1 / n1) ^ 2 / (n1 - 1) + (var2 / n2) ^ 2 / (n2 - 1))
    ⟨t, df, min 1 (2 * (0.5 * incompleteBeta (df / 2) 0.5 (df / (df + t ^ 2))))⟩

/-- Stable insertion step of a descending sort keyed by a real-valued function:
the incoming element x is earlier in the original list than every element of
the already-sorted suffix, so x goes in front of the first element whose key
does not exceed x's (ties keep the earlier element first).  This is the
unique result of the ECMAScript stable Array.prototype.sort with the
comparator (a, b) => key(b) - key(a). -/
def insertDescBy {α : Type} (key : α → ℝ) (x : α) : List α → List α
  | [] => [x]
  | y :: ys => if key y ≤ key x then x :: y :: ys else y :: insertDescBy key x ys

/-- Stable descending sort by a real-valued key; models the source's
results.sort((a, b) => b.rSquared - a.rSquared) (source: Stats.fitAllComplexities). -/
def sortByKeyDesc {α : Type} (key : α → ℝ) : List α → List α
  | [] => []
  | x :: xs => insertDescBy key x (sortByKeyDesc key xs)

/-- Stable insertion step of an ascending sort keyed by a real-valued
function; counterpart of insertDescBy for the comparator (a, b) => key(a) - key(b). -/
def insertAscBy {α : Type} (key : α → ℝ) (x : α) : List α → List α
  | [] => [x]
  | y :: ys => if key x ≤ key y then x :: y :: ys else y :: insertAscBy key x ys

/-- Stable ascending sort by a real-valued key; models the ECMAScript stable
sort with comparator (a, b) => key(a) - key(b). -/
def sortByKeyAsc {α : Type} (key : α → ℝ) : List α → List α
  | [] => []
  | x :: xs => insertAscBy key x (sortByKeyAsc key xs)

/-- One empirical measurement for the complexity classifier: input size n and
measured time (source: the {n, time} observation objects of Stats.analyzeComplexity). -/
structure Observation where
  n : ℝ
  time : ℝ

/-- Sum of x[i] * y[i] over the indices of xValues, as the source's reduce
with index does (source: Stats.linearRegression, sumXY). -/
def regressionSumXY (xValues yValues : List ℝ) : ℝ :=
  ((List.range xValues.length).map (fun i => xValues.getD i 0 * yValues.getD i 0)).sum

/-- Closed-form least-squares slope (source: Stats.linearRegression). -/
def regressionSlope (xValues yValues : List ℝ) : ℝ :=
  let n : ℝ := (xValues.length : ℝ)
  let sumX := xValues.sum
  let sumY := yValues.sum
  let sumXY := regressionSumXY xValues yValues
  let sumX2 := (xValues.map (fun x => x * x)).sum
  (n * sumXY - sumX * sumY) / (n * sumX2 - sumX * sumX)

/-- Closed-form least-squares intercept (source: Stats.linearRegression). -/
def regressionIntercept (xValues yValues : List ℝ) : ℝ :=
  (yValues.sum - regressionSlope xValues yValues * xValues.sum) / (xValues.length : ℝ)

/-- Total sum of squares around the mean of yValues; the source divides sumY
by n = xValues.length (source: Stats.linearRegression, ssTotal). -/
def ssTotal (xValues yValues : List ℝ) : ℝ :=
  let yMean := yValues.sum / (xValues.length : ℝ)
  (yValues.map (fun y => (y - yMean) ^ 2)).sum

/-- Residual sum of squares of the fitted line over the indices of yValues
(source: Stats.linearRegression, ssResidual). -/
def ssResidual (xValues yValues : List ℝ) : ℝ :=
  ((List.range yValues.length).map (fun i =>
    (yValues.getD i 0 -
      (regressionSlope xValues yValues * xValues.getD i 0 +
        regressionIntercept xValues yValues)) ^ 2)).sum

/-- Result record of the simple linear regression (source: Stats.linearRegression). -/
structure RegressionResult where
  slope : ℝ
  intercept : ℝ
  rSquared : ℝ

/-- Simple linear regression (source: Stats.linearRegression).  Fewer than two
observations give the all-zero result; otherwise the closed-form slope and
intercept, and R squared floored at 0, defined as 0 when the total sum of
squares is 0.  The sums the source accumulates once appear here as the helper
definitions above, which recompute the same values. -/
def linearRegression (xValues yValues : List ℝ) : RegressionResult :=
  if xValues.length < 2 then ⟨0, 0, 0⟩
  else
    ⟨regressionSlope xValues yValues, regressionIntercept xValues yValues,
      max 0 (if ssTotal xValues yValues = 0 then 0
        else 1 - ssResidual xValues yValues / ssTotal xValues yValues)⟩

/-- One entry of the complexity-class catalog (source: Stats.complexityClasses).
transformDefined is the real-number rendering of the source's isFinite test on
transformed values: Math.log is non-finite exactly on arguments not greater
than 0, and n * Math.log(n) is additionally NaN at n = 0, so the two
logarithmic transforms are defined exactly on positive n; the remaining
transforms are total (double overflow to Infinity for astronomically large
inputs lies outside the real-number model). -/
structure ComplexityClass where
  name : String
  label : String
  transform : ℝ → ℝ
  transformDefined : ℝ → Bool
  color : String

/-- The fixed catalog of complexity classes, keyed by name as the source's
object literal is (source: Stats.complexityClasses).  Unknown keys, which the
source never looks up, map to a junk entry. -/
def complexityClassDef : String → ComplexityClass
  | "O(1)" => ⟨"O(1)", "Constant", fun _ => 1, fun _ => true, "#10b981"⟩
  | "O(log n)" => ⟨"O(log n)", "Logarithmic", fun n => Real.log n, fun n => decide (0 < n), "#3b82f6"⟩
  | "O(n)" => ⟨"O(n)", "Linear", fun n => n, fun _ => true, "#8b5cf6"⟩
  | "O(n log n)" => ⟨"O(n log n)", "Linearithmic", fun n => n * Real.log n, fun n => decide (0 < n), "#f59e0b"⟩
  | "O(n²)" => ⟨"O(n²)", "Quadratic", fun n => n * n, fun _ => true, "#ef4444"⟩
  | "O(n³)" => ⟨"O(n³)", "Cubic", fun n => n * n * n, fun _ => true, "#ec4899"⟩
  | "O(2ⁿ)" => ⟨"O(2ⁿ)", "Exponential", fun n => (2 : ℝ) ^ n, fun _ => true, "#6366f1"⟩
  | _ => ⟨"", "", fun _ => 0, fun _ => true, ""⟩

/-- A complexity fit: the regression outcome of fitComplexity together with
the name, label and color that fitAllComplexities spreads onto it, the invalid
flag of the non-finite-transform case, and the isBestFit mark (absent in
JavaScript until set, rendered as false) (source: Stats.fitComplexity and
Stats.fitAllComplexities). -/
structure Fit where
  rSquared : ℝ
  coefficient : ℝ
  constant : ℝ
  complexityClass : String
  label : String
  color : String
  invalid : Bool
  isBestFit : Bool

/-- Fit the data to one complexity class (source: Stats.fitComplexity): if any
transformed size is non-finite the fit is invalid with rSquared -1, otherwise
regress transformed sizes against times. -/
def fitComplexity (data : List Observation) (className : String) : Fit :=
  let c := complexityClassDef className
  if data.any (fun d => !(c.transformDefined d.n)) then
    ⟨-1, 0, 0, className, c.label, c.color, true, false⟩
  else
    let transformedN := data.map (fun d => c.transform d.n)
    let times := data.map (fun d => d.time)
    let regression := linearRegression transformedN times
    ⟨regression.rSquared, regression.slope, regression.intercept, className,
      c.label, c.color, false, false⟩

/-- The first six catalog names, in catalog order (source: Stats.fitAllComplexities). -/
def baseClassNames : List String :=
  ["O(1)", "O(log n)", "O(n)", "O(n log n)", "O(n²)", "O(n³)"]

/-- The class names tried for the given data: the exponential class is pushed
exactly when the maximum observed n is at most 30 — equivalently when every
observation has n at most 30, which also covers the empty data where the
JavaScript Math.max() of no arguments is -Infinity
(source: Stats.fitAllComplexities). -/
def classNamesFor (data : List Observation) : List String :=
  if data.all (fun d => decide (d.n ≤ 30)) then baseClassNames ++ ["O(2ⁿ)"]
  else baseClassNames

/-- The eligible fits in catalog order: every tried class fitted, invalid fits
dropped (source: Stats.fitAllComplexities, the forEach with the invalid test). -/
def eligibleFits (data : List Observation) : List Fit :=
  ((classNamesFor data).map (fitComplexity data)).filter (fun f => !f.invalid)

/-- Fit all eligible classes, sort descending by R squared with the stable
sort, and mark the top entry best (source: Stats.fitAllComplexities). -/
def fitAllComplexities (data : List Observation) : List Fit :=
  match sortByKeyDesc Fit.rSquared (eligibleFits data) with
  | [] => []
  | b :: rest => { b with isBestFit := true } :: rest

/-- Predicted times of a fit at the given sizes, clamped non-negative
(source: Stats.generatePredictions). -/
def generatePredictions (fit : Fit) (nValues : List ℝ) : List ℝ :=
  nValues.map (fun n =>
    max 0 (fit.coefficient * (complexityClassDef fit.complexityClass).transform n + fit.constant))

/-- Cohen's d effect size (source: Stats.cohensD). -/
def cohensD (arr1 arr2 : List ℝ) : ℝ :=
  let mean1 := mean arr1
  let mean2 := mean arr2
  let n1 : ℝ := (arr1.length : ℝ)
  let n2 : ℝ := (arr2.length : ℝ)
  let var1 := variance arr1
  let var2 := variance arr2
  let pooledVar := ((n1 - 1) * var1 + (n2 - 1) * var2) / (n1 + n2 - 2)
  let pooledStd := Real.sqrt pooledVar
  if pooledStd = 0 then 0 else (mean1 - mean2) / pooledStd

/-- Median (source: Stats.median): sort an ascending copy; middle element for
odd length, average of the two middle elements for even length; 0 for empty. -/
def median (arr : List ℝ) : ℝ :=
  if arr.length = 0 then 0
  else
    let sorted := sortByKeyAsc id arr
    let mid := sorted.length / 2
    if sorted.length % 2 ≠ 0 then sorted.getD mid 0
    else (sorted.getD (mid - 1) 0 + sorted.getD mid 0) / 2

/-- Percentile by linear interpolation between order statistics
(source: Stats.percentile).  The real index (p/100)(n-1) is split into its
integer floor and ceiling neighbours; p outside [0, 100] is outside the
caller contract. -/
def percentile (arr : List ℝ) (p : ℝ) : ℝ :=
  if arr.length = 0 then 0
  else
    let sorted := sortByKeyAsc id arr
    let index := p / 100 * ((arr.length : ℝ) - 1)
    let lower := ⌊index⌋
    let upper := ⌈index⌉
    if lower = upper then sorted.getD lower.toNat 0
    else sorted.getD lower.toNat 0 +
      (index - (lower : ℝ)) * (sorted.getD upper.toNat 0 - sorted.getD lower.toNat 0)

/-- The three quartiles (source: Stats.quartiles). -/
structure Quartiles where
  q1 : ℝ
  q2 : ℝ
  q3 : ℝ

/-- Quartiles via percentile at 25 and 75 and the median (source: Stats.quartiles). -/
def quartiles (arr : List ℝ) : Quartiles :=
  ⟨percentile arr 25, median arr, percentile arr 75⟩

/-- Interquartile range (source: Stats.iqr). -/
def iqr (arr : List ℝ) : ℝ := (quartiles arr).q3 - (quartiles arr).q1

/-- Extrema of a sample (source: Stats.minMax). -/
structure MinMax where
  min : ℝ
  max : ℝ

/-- Extrema; {0, 0} for the empty sample (source: Stats.minMax). -/
def minMax (arr : List ℝ) : MinMax :=
  match arr with
  | [] => ⟨0, 0⟩
  | x :: xs => ⟨xs.foldl min x, xs.foldl max x⟩

/-- Descriptive summary of one sample (source: Stats.describeSample). -/
structure DescriptiveSummary where
  n : ℕ
  mean : ℝ
  median : ℝ
  stdDev : ℝ
  standardError : ℝ
  variance : ℝ
  min : ℝ
  max : ℝ
  range : ℝ
  q1 : ℝ
  q3 : ℝ
  iqr : ℝ

/-- Compose the descriptive statistics (source: Stats.describeSample). -/
def describeSample (arr : List ℝ) : DescriptiveSummary :=
  let q := quartiles arr
  let mm := minMax arr
  ⟨arr.length, mean arr, q.q2, stdDev arr, standardError arr, variance arr,
    mm.min, mm.max, mm.max - mm.min, q.q1, q.q3, q.q3 - q.q1⟩

/-- Qualitative interpretation of a p-value (source: Stats.interpretPValue). -/
structure PInterpretation where
  level : String
  confidence : ℝ
  description : String

/-- Bucket a p-value into a confidence level (source: Stats.interpretPValue). -/
def interpretPValue (pValue : ℝ) : PInterpretation :=
  if pValue < 0.001 then ⟨"Very High", 99.9, "Extremely strong evidence"⟩
  else if pValue < 0.01 then ⟨"High", 99, "Strong evidence"⟩
  else if pValue < 0.05 then ⟨"Moderate", 95, "Moderate evidence"⟩
  else if pValue < 0.1 then ⟨"Low", 90, "Weak evidence"⟩
  else ⟨"Insufficient", 0, "No significant evidence"⟩

/-- Percentage change from before to after; 0 when before is 0
(source: Stats.percentageChange). -/
def percentageChange (before after : ℝ) : ℝ :=
  if before = 0 then 0 else (after - before) / before * 100

/-- One experimental group of the multi-variate analysis: a name, a mapping
from treatment name to boolean presence (the JavaScript object becomes an
association list), and the raw data (source: the group inputs of
Stats.analyzeMultiVariate). -/
structure Group where
  name : String
  treatments : List (String × Bool)
  data : List ℝ

/-- The truthiness of group.treatments[t] in the source: a missing key is
undefined, hence falsy. -/
def Group.hasTreatment (g : Group) (t : String) : Bool :=
  (g.treatments.lookup t).getD false

/-- Out-of-range default for indexed group access; the source only indexes in
range, so this value is never produced. -/
def dummyGroup : Group := ⟨"", [], []⟩

/-- The inner loop of the matched-pair test: every treatment other than T
agrees between the two groups (source: Stats.analyzeMultiVariate, the
for-of loop over treatmentNames). -/
def otherTreatmentsSame (names : List String) (T : String) (g1 g2 : Group) : Bool :=
  names.all (fun t => t == T || (g1.hasTreatment t == g2.hasTreatment t))

/-- The index pairs (i, j) collected by the double loop of the pairwise
phase, in loop order: i and j range over the group indices, i and j differ,
group i lacks T, group j has T, and all other treatments agree
(source: Stats.analyzeMultiVariate, pairwise phase). -/
def matchedPairIdx (groups : List Group) (names : List String) (T : String) : List (ℕ × ℕ) :=
  (List.range groups.length).bind (fun i =>
    ((List.range groups.length).filter (fun j =>
      i != j &&
      !(groups.getD i dummyGroup).hasTreatment T &&
      (groups.getD j dummyGroup).hasTreatment T &&
      otherTreatmentsSame names T (groups.getD i dummyGroup) (groups.getD j dummyGroup))).map
      (fun j => (i, j)))

/-- A per-treatment result of the multi-variate analysis.  The three result
shapes of the source share this record: fields the source leaves undefined or
null in a given shape become none or false here (source:
Stats.analyzeMultiVariate, results.treatments entries). -/
structure TreatmentEffect where
  name : String
  effect : Option ℝ
  percentEffect : Option ℝ
  withMean : Option ℝ
  withoutMean : Option ℝ
  withN : ℕ
  withoutN : ℕ
  pValue : Option ℝ
  isSignificant : Bool
  interpretation : Option PInterpretation
  pairCount : Option ℕ
  method : Option String
  confounded : Bool
  insufficient : Bool

/-- The per-treatment estimate (source: Stats.analyzeMultiVariate, body of the
forEach over treatmentNames): the pairwise phase when matched pairs exist; the
marginal fallback when both pooled partitions hold at least two data points;
the insufficient marker otherwise.  Pair effects read the group means through
describeSample exactly as the source reads g.stats.mean. -/
def treatmentEffectFor (groups : List Group) (names : List String) (T : String) : TreatmentEffect :=
  let idx := matchedPairIdx groups names T
  if 0 < idx.length then
    let effects := idx.map (fun p =>
      (describeSample (groups.getD p.2 dummyGroup).data).mean -
        (describeSample (groups.getD p.1 dummyGroup).data).mean)
    let percentEffects := idx.map (fun p =>
      percentageChange (describeSample (groups.getD p.1 dummyGroup).data).mean
        (describeSample (groups.getD p.2 dummyGroup).data).mean)
    let allWithData := idx.bind (fun p => (groups.getD p.2 dummyGroup).data)
    let allWithoutData := idx.bind (fun p => (groups.getD p.1 dummyGroup).data)
    let tTest := welchTTest allWithoutData allWithData
    { name := T, effect := some (mean effects), percentEffect := some (mean percentEffects),
      withMean := some (mean allWithData), withoutMean := some (mean allWithoutData),
      withN := allWithData.length, withoutN := allWithoutData.length,
      pValue := some tTest.pValue, isSignificant := decide (tTest.pValue < 0.05),
      interpretation := some (interpretPValue tTest.pValue),
      pairCount := some idx.length, method := some "pairwise",
      confounded := false, insufficient := false }
  else
    let withTreatment := (groups.filter (fun g => g.hasTreatment T)).bind (fun g => g.data)
    let withoutTreatment := (groups.filter (fun g => !g.hasTreatment T)).bind (fun g => g.data)
    if 2 ≤ withTreatment.length ∧ 2 ≤ withoutTreatment.length then
      let withMean := mean withTreatment
      let withoutMean := mean withoutTreatment
      let tTest := welchTTest withoutTreatment withTreatment
      { name := T, effect := some (withMean - withoutMean),
        percentEffect := some (percentageChange withoutMean withMean),
        withMean := some withMean, withoutMean := some withoutMean,
        withN := withTreatment.length, withoutN := withoutTreatment.length,
        pValue := some tTest.pValue, isSignificant := decide (tTest.pValue < 0.05),
        interpretation := some (interpretPValue tTest.pValue),
        pairCount := none, method := some "marginal",
        confounded := true, insufficient := false }
    else
      { name := T, effect := none, percentEffect := none,
        withMean := none, withoutMean := none,
        withN := withTreatment.length, withoutN := withoutTreatment.length,
        pValue := none, isSignificant := false, interpretation := none,
        pairCount := none, method := none, confounded := false, insufficient := true }

/-- The treatment signature string of a group: one character per treatment
name, 1 for present and 0 for absent (source: Stats.analyzeMultiVariate,
treatmentSignature). -/
def treatmentSignature (names : List String) (g : Group) : String :=
  String.mk (names.map (fun t => if g.hasTreatment t then '1' else '0'))

/-- Group info entry of the result (source: Stats.analyzeMultiVariate,
results.groups entries). -/
structure GroupInfo where
  name : String
  treatments : List (String × Bool)
  stats : DescriptiveSummary
  treatmentSignature : String

/-- Build the group info entry (source: Stats.analyzeMultiVariate). -/
def groupInfoOf (names : List String) (g : Group) : GroupInfo :=
  ⟨g.name, g.treatments, describeSample g.data, treatmentSignature names g⟩

/-- Number of active treatments of a group: the true values of the
treatments object (source: Stats.analyzeMultiVariate, baseline search). -/
def treatmentCount (g : Group) : ℕ :=
  (g.treatments.filter (fun p => p.2)).length

/-- Index of the baseline group: the first group with strictly fewest active
treatments, none for an empty group list (source: Stats.analyzeMultiVariate,
the loop with minTreatments starting at Infinity). -/
def baselineIdx (groups : List Group) : Option ℕ :=
  (groups.foldl
    (fun (acc : Option (ℕ × ℕ) × ℕ) (g : Group) =>
      match acc with
      | (none, i) => (some (i, treatmentCount g), i + 1)
      | (some (bi, bc), i) =>
        (if treatmentCount g < bc then some (i, treatmentCount g) else some (bi, bc), i + 1))
    (none, 0)).1.map Prod.fst

/-- Sort observations ascending by n; models the ECMAScript stable sort with
comparator (a, b) => a.n - b.n (source: Stats.analyzeComplexity). -/
def sortObsByN (data : List Observation) : List Observation :=
  sortByKeyAsc Observation.n data

/-- Confidence bucket of the complexity analysis (source: Stats.analyzeComplexity). -/
structure Confidence where
  level : String
  description : String

/-- Bucket the best fit's R squared into a confidence level; no best fit (no
fits at all) is the poor-fit bucket, as in the source's test of
!bestFit (source: Stats.analyzeComplexity). -/
def complexityConfidence (bestFit : Option Fit) : Confidence :=
  match bestFit with
  | none => ⟨"Low", "Poor fit - data may not follow standard complexity classes"⟩
  | some bf =>
    if bf.rSquared < 0.7 then
      ⟨"Low", "Poor fit - data may not follow standard complexity classes"⟩
    else if bf.rSquared < 0.9 then ⟨"Moderate", "Reasonable fit - some variance unexplained"⟩
    else if bf.rSquared < 0.98 then ⟨"High", "Good fit - data matches complexity class well"⟩
    else ⟨"Very High", "Excellent fit - data closely matches complexity class"⟩

/-- Result record of the complexity analysis (source: Stats.analyzeComplexity
return object). -/
structure ComplexityResult where
  data : List Observation
  fits : List Fit
  bestFit : Option Fit
  predictions : List ℝ
  confidence : Confidence

/-- The value computed by analyzeComplexity as a pure function of the input
observations (source: Stats.analyzeComplexity): sort by n, fit all classes,
pick the marked best fit or else the first fit, predict at the observed
sizes, bucket the confidence. -/
def analyzeComplexityPure (data : List Observation) : ComplexityResult :=
  let sortedData := sortObsByN data
  let fits := fitAllComplexities sortedData
  let bestFit := (fits.find? (fun f => f.isBestFit)).orElse (fun _ => fits.head?)
  let nValues := sortedData.map (fun d => d.n)
  let predictions :=
    match bestFit with
    | some bf => generatePredictions bf nValues
    | none => []
  ⟨sortedData, fits, bestFit, predictions, complexityConfidence bestFit⟩

/-- A store of JavaScript array objects: addresses below next hold the live
arrays.  This is the minimal heap needed to talk about mutation of the
caller's observations array by analyzeComplexity. -/
structure JSHeap where
  arrays : ℕ → List Observation
  next : ℕ

/-- Read the array at an address. -/
def heapRead (h : JSHeap) (r : ℕ) : List Observation := h.arrays r

/-- Allocate a fresh array holding v, returning the new heap and the fresh
address; models the spread copy [...data]. -/
def heapAlloc (h : JSHeap) (v : List Observation) : JSHeap × ℕ :=
  (⟨fun i => if i = h.next then v else h.arrays i, h.next + 1⟩, h.next)

/-- Overwrite the array at an address in place; models the in-place
Array.prototype.sort on the copy. -/
def heapWrite (h : JSHeap) (r : ℕ) (v : List Observation) : JSHeap :=
  ⟨fun i => if i = r then v else h.arrays i, h.next⟩

/-- analyzeComplexity against the array store (source: Stats.analyzeComplexity):
the line const sortedData = [...data].sort((a, b) => a.n - b.n) allocates a
fresh copy of the caller's array and sorts that copy in place; everything
after it only reads.  Returns the final heap together with the result. -/
def analyzeComplexityHeap (h : JSHeap) (r : ℕ) : JSHeap × ComplexityResult :=
  let p := heapAlloc h (heapRead h r)
  let h2 := heapWrite p.1 p.2 (sortObsByN (heapRead p.1 p.2))
  let sortedData := heapRead h2 p.2
  let fits := fitAllComplexities sortedData
  let bestFit := (fits.find? (fun f => f.isBestFit)).orElse (fun _ => fits.head?)
  let nValues := sortedData.map (fun d => d.n)
  let predictions :=
    match bestFit with
    | some bf => generatePredictions bf nValues
    | none => []
  (h2, ⟨sortedData, fits, bestFit, predictions, complexityConfidence bestFit⟩)

/-- The full result of the multi-variate analysis (source:
Stats.analyzeMultiVariate, results object). -/
structure MultiVariateResult where
  groups : List GroupInfo
  treatments : List TreatmentEffect
  baseline : Option GroupInfo
  overallMean : ℝ

/-- Multi-variate treatment-effect analysis (source: Stats.analyzeMultiVariate):
per-group summaries, one treatment entry per treatment name in order, the
baseline group, and the mean of all pooled data. -/
def analyzeMultiVariate (groups : List Group) (treatmentNames : List String) : MultiVariateResult :=
  { groups := groups.map (groupInfoOf treatmentNames)
    treatments := treatmentNames.map (treatmentEffectFor groups treatmentNames)
    baseline := (baselineIdx groups).map
      (fun i => groupInfoOf treatmentNames (groups.getD i dummyGroup))
    overallMean := mean (groups.bind (fun g => g.data)) }

/-- A JavaScript double in the exact-arithmetic model that still tracks the
non-finite values: a finite real, the two infinities, or NaN.  The model
carries a single zero; JavaScript's signed zero is not represented, so
division of a nonzero finite value by zero yields the infinity signed by the
numerand, as JavaScript does for a positive zero divisor — the divisions the
source performs only ever have a positive zero divisor. -/
inductive JSNum where
  | num : ℝ → JSNum
  | posInf : JSNum
  | negInf : JSNum
  | nan : JSNum

/-- JavaScript addition on doubles, exact on the finite reals: NaN propagates,
opposite infinities give NaN. -/
def jsAdd : JSNum → JSNum → JSNum
  | .nan, _ => .nan
  | _, .nan => .nan
  | .posInf, .negInf => .nan
  | .negInf, .posInf => .nan
  | .posInf, _ => .posInf
  | _, .posInf => .posInf
  | .negInf, _ => .negInf
  | _, .negInf => .negInf
  | .num a, .num b => .num (a + b)

/-- JavaScript subtraction on doubles, exact on the finite reals: NaN
propagates, equal infinities give NaN. -/
def jsSub : JSNum → JSNum → JSNum
  | .nan, _ => .nan
  | _, .nan => .nan
  | .posInf, .posInf => .nan
  | .negInf, .negInf => .nan
  | .posInf, _ => .posInf
  | _, .posInf => .negInf
  | .negInf, _ => .negInf
  | _, .negInf => .posInf
  | .num a, .num b => .num (a - b)

/-- JavaScript multiplication on doubles, exact on the finite reals: NaN
propagates, an infinity times zero is NaN, otherwise infinities multiply by
sign. -/
def jsMul : JSNum → JSNum → JSNum
  | .nan, _ => .nan
  | _, .nan => .nan
  | .posInf, .posInf => .posInf
  | .posInf, .negInf => .negInf
  | .negInf, .posInf => .negInf
  | .negInf, .negInf => .posInf
  | .posInf, .num b => if b = 0 then .nan else if 0 < b then .posInf else .negInf
  | .num a, .posInf => if a = 0 then .nan else if 0 < a then .posInf else .negInf
  | .negInf, .num b => if b = 0 then .nan else if 0 < b then .negInf else .posInf
  | .num a, .negInf => if a = 0 then .nan else if 0 < a then .negInf else .posInf
  | .num a, .num b => .num (a * b)

/-- JavaScript division on doubles, exact on the finite reals: NaN propagates,
0/0 and infinity/infinity are NaN, a nonzero finite value over zero is the
infinity signed by the numerand, a finite value over an infinity is zero. -/
def jsDiv : JSNum → JSNum → JSNum
  | .nan, _ => .nan
  | _, .nan => .nan
  | .posInf, .posInf => .nan
  | .posInf, .negInf => .nan
  | .negInf, .posInf => .nan
  | .negInf, .negInf => .nan
  | .posInf, .num b => if 0 ≤ b then .posInf else .negInf
  | .negInf, .num b => if 0 ≤ b then .negInf else .posInf
  | .num _, .posInf => .num 0
  | .num _, .negInf => .num 0
  | .num a, .num b =>
    if b = 0 then (if a = 0 then .nan else if 0 < a then .posInf else .negInf)
    else .num (a / b)

/-- JavaScript Math.sqrt on doubles, exact on the finite nonnegative reals:
NaN and negative arguments give NaN, positive infinity gives positive
infinity. -/
def jsSqrt : JSNum → JSNum
  | .nan => .nan
  | .posInf => .posInf
  | .negInf => .nan
  | .num a => if a < 0 then .nan else .num (Real.sqrt a)

/-- JavaScript Math.max on doubles: NaN if either argument is NaN, otherwise
the larger in the extended order. -/
def jsMax : JSNum → JSNum → JSNum
  | .nan, _ => .nan
  | _, .nan => .nan
  | .posInf, _ => .posInf
  | _, .posInf => .posInf
  | .negInf, b => b
  | a, .negInf => a
  | .num a, .num b => .num (max a b)

/-- The JavaScript strict comparison v === 0: false on NaN and on the
infinities. -/
def jsEqZero : JSNum → Bool
  | .num a => decide (a = 0)
  | _ => false

/-- standardError as the source computes it over doubles (source:
Stats.standardError).  stdDev is always a finite nonnegative real (square
root of the nonnegative variance) and Math.sqrt of the length is a finite
real, so only the final division can leave the reals: on the empty sample it
is 0/0. -/
def jsStandardError (arr : List ℝ) : JSNum :=
  jsDiv (.num (stdDev arr)) (.num (Real.sqrt (arr.length : ℝ)))

/-- Cohen's d as the source computes it over doubles (source: Stats.cohensD).
Means and variances of finite samples are finite reals; the pooled-variance
quotient is the first operation that can leave the reals (0/0 when
n1 + n2 = 2), after which the non-finite value flows through the square
root, the === 0 guard (false on NaN) and the final division. -/
def jsCohensD (arr1 arr2 : List ℝ) : JSNum :=
  let mean1 := mean arr1
  let mean2 := mean arr2
  let n1 : ℝ := (arr1.length : ℝ)
  let n2 : ℝ := (arr2.length : ℝ)
  let var1 := variance arr1
  let var2 := variance arr2
  let pooledVar := jsDiv (.num ((n1 - 1) * var1 + (n2 - 1) * var2)) (.num (n1 + n2 - 2))
  let pooledStd := jsSqrt pooledVar
  if jsEqZero pooledStd then .num 0 else jsDiv (.num (mean1 - mean2)) pooledStd

/-- The least-squares slope as the source computes it over doubles (source:
Stats.linearRegression).  The sums of finite inputs are the finite reals of
the real-model helpers; the closed-form quotient is 0/0 = NaN exactly when
all x-values coincide. -/
def jsRegressionSlope (xValues yValues : List ℝ) : JSNum :=
  jsDiv
    (.num ((xValues.length : ℝ) * regressionSumXY xValues yValues - xValues.sum * yValues.sum))
    (.num ((xValues.length : ℝ) * (xValues.map (fun x => x * x)).sum - xValues.sum * xValues.sum))

/-- The least-squares intercept over doubles (source: Stats.linearRegression):
a NaN slope propagates. -/
def jsRegressionIntercept (xValues yValues : List ℝ) : JSNum :=
  jsDiv (jsSub (.num yValues.sum) (jsMul (jsRegressionSlope xValues yValues) (.num xValues.sum)))
    (.num (xValues.length : ℝ))

/-- The residual sum of squares over doubles (source: Stats.linearRegression,
ssResidual): the reduce over the indices of yValues, with Math.pow(v, 2)
rendered as v times v (the two agree on every double for exponent 2); a NaN
slope or intercept propagates into every summand. -/
def jsSsResidual (xValues yValues : List ℝ) : JSNum :=
  ((List.range yValues.length).map (fun i =>
    let p := jsSub (.num (yValues.getD i 0))
      (jsAdd (jsMul (jsRegressionSlope xValues yValues) (.num (xValues.getD i 0)))
        (jsRegressionIntercept xValues yValues))
    jsMul p p)).foldl jsAdd (.num 0)

/-- Regression result in the double model (source: Stats.linearRegression
return value). -/
structure JSRegressionResult where
  slope : JSNum
  intercept : JSNum
  rSquared : JSNum

/-- Linear regression as the source computes it over doubles (source:
Stats.linearRegression).  The total sum of squares is a finite real (its
inputs are finite and its divisor n is at least 2 in this branch), so the
=== 0 ternary test is a real comparison, while slope, intercept, residual
sum and R squared are NaN-aware; Math.max(0, NaN) is NaN. -/
def jsLinearRegression (xValues yValues : List ℝ) : JSRegressionResult :=
  if xValues.length < 2 then ⟨.num 0, .num 0, .num 0⟩
  else
    ⟨jsRegressionSlope xValues yValues, jsRegressionIntercept xValues yValues,
      jsMax (.num 0)
        (if ssTotal xValues yValues = 0 then .num 0
         else jsSub (.num 1) (jsDiv (jsSsResidual xValues yValues) (.num (ssTotal xValues yValues))))⟩

/-- The R squared the source computes for one complexity class over doubles
(source: Stats.fitComplexity): none when the class is invalid on the data
(non-finite transformed size), otherwise the NaN-aware regression R squared
of transformed sizes against times. -/
def jsFitRSquared (data : List Observation) (className : String) : Option JSNum :=
  let c := complexityClassDef className
  if data.any (fun d => !(c.transformDefined d.n)) then none
  else some (jsLinearRegression (data.map (fun d => c.transform d.n))
    (data.map (fun d => d.time))).rSquared

end Stats

end

namespace Stats

/-- Claim C1: welchTTest implements the specification formula: when the
standard error sqrt(var1/n1 + var2/n2) is exactly 0 it returns t = 0,
df = n1 + n2 - 2, pValue = 1, and otherwise it returns the Welch t-statistic,
the Welch-Satterthwaite degrees of freedom, and
pValue = min(1, 2 * 0.5 * incompleteBeta(df/2, 0.5, df/(df + t^2))). -/
theorem welchTTest_matches_spec (arr1 arr2 : List ℝ) :
    welchTTest arr1 arr2 = welchTTestSpec arr1 arr2 := by
  simp only [welchTTest, welchTTestSpec, tDistributionPValue]
  split
  · rfl
  · rw [TTestResult.mk.injEq]
    refine ⟨rfl, rfl, ?_⟩
    rw [abs_mul_abs_self, ← pow_two, min_comm]
    ring_nf

/-- Claim C2: for a, b > 0 and 0 < x < 1, when the complement test
x > (a+1)/(a+b+2) fires, the recursive argument 1 - x fails its own complement
test 1 - x > (b+1)/(b+a+2), so the complement recursion of incompleteBeta is
at most one level deep: any fuel of at least one gives the value of
incompleteBeta, which uses fuel exactly one. -/
theorem incompleteBeta_complement_depth_one (a b x : ℝ) (ha : 0 < a) (hb : 0 < b)
    (hx0 : 0 < x) (hx1 : x < 1) (hcompl : (a + 1) / (a + b + 2) < x) :
    ¬ ((b + 1) / (b + a + 2) < 1 - x) ∧
      ∀ fuel : ℕ, incompleteBetaFuel (fuel + 1) a b x = incompleteBeta a b x := by
  have hs : (0 : ℝ) < a + b + 2 := by linarith
  have hax : a + 1 < x * (a + b + 2) := (div_lt_iff hs).mp hcompl
  have hinner : 1 - x < (b + 1) / (b + a + 2) := by
    rw [lt_div_iff (by linarith : (0 : ℝ) < b + a + 2)]
    nlinarith
  refine ⟨not_lt.mpr hinner.le, ?_⟩
  intro fuel
  have hx0' : x ≠ 0 := ne_of_gt hx0
  have hx1' : x ≠ 1 := ne_of_lt hx1
  have hcx0 : ¬ ((1 : ℝ) - x = 0) := by intro h; apply hx1'; linarith
  have hcx1 : ¬ ((1 : ℝ) - x = 1) := by intro h; apply hx0'; linarith
  have hinner' : ¬ ((b + 1) / (b + a + 2) < 1 - x) := not_lt.mpr hinner.le
  have hinnerEq : ∀ g : ℕ, incompleteBetaFuel g b a (1 - x) = incompleteBetaCore b a (1 - x) := by
    intro g
    cases g with
    | zero => simp only [incompleteBetaFuel, if_neg hcx0, if_neg hcx1]
    | succ g => simp only [incompleteBetaFuel, if_neg hcx0, if_neg hcx1, if_neg hinner']
  show incompleteBetaFuel (fuel + 1) a b x = incompleteBetaFuel 1 a b x
  simp only [incompleteBetaFuel, if_neg hx0', if_neg hx1', if_pos hcompl, hinnerEq]
  rw [if_neg hcx0, if_neg hcx1]

/-- Witness for claim C2 at a = 1, b = 1, x = 3/4: the complement test fires
and the conclusion holds there. -/
theorem incompleteBeta_complement_depth_one_witness :
    (((1 : ℝ) + 1) / (1 + 1 + 2) < 3 / 4) ∧
      (¬ (((1 : ℝ) + 1) / (1 + 1 + 2) < 1 - 3 / 4) ∧
        ∀ fuel : ℕ, incompleteBetaFuel (fuel + 1) 1 1 (3 / 4) = incompleteBeta 1 1 (3 / 4)) :=
  ⟨by norm_num,
    incompleteBeta_complement_depth_one 1 1 (3 / 4) (by norm_num) (by norm_num)
      (by norm_num) (by norm_num) (by norm_num)⟩

/-- Claim C4 (code bug): the claim says cohensD always returns a finite real,
and 0 whenever the pooled standard deviation is 0.  At the one-element pair
arr1 = [1], arr2 = [2] the source computes pooledVar = (0 + 0)/(1 + 1 - 2),
which is 0/0 = NaN in the double model; the pooledStd === 0 guard is false on
NaN, and the returned quotient is NaN — not a finite real and not 0. -/
theorem cohensD_nan_bug : jsCohensD [(1 : ℝ)] [(2 : ℝ)] = JSNum.nan := by
  norm_num [jsCohensD, jsDiv, jsSqrt, jsEqZero, variance, mean]

/-- Claim C9 (code bug): the claim says stdDev and standardError are 0 on
every sample with fewer than two elements, the empty sample included, rather
than a non-finite value.  On the empty sample the source's standardError
divides stdDev([]) = 0 by Math.sqrt(0) = 0, which is NaN in the double
model; stdDev([]) itself is 0 and the one-element standardError is 0, as
claimed. -/
theorem standardError_nan_bug :
    jsStandardError [] = JSNum.nan ∧ stdDev [] = 0 ∧
      jsStandardError [(5 : ℝ)] = JSNum.num 0 := by
  refine ⟨?_, ?_, ?_⟩
  · norm_num [jsStandardError, jsDiv, stdDev, variance]
  · norm_num [stdDev, variance]
  · norm_num [jsStandardError, jsDiv, stdDev, variance]

/-- Claim C8 (code bug): the claim says the rSquared of linearRegression is
non-negative, equal to max(0, 1 - SSres/SStot).  At xValues = [1, 1],
yValues = [1, 2] — equal lengths, two observations — the slope is
(2*3 - 2*3)/(2*2 - 2*2) = 0/0 = NaN in the double model; NaN propagates
through the intercept and the residual sum, and Math.max(0, NaN) is NaN, so
the returned rSquared is NaN rather than a non-negative real. -/
theorem linearRegression_nan_bug :
    (jsLinearRegression [(1 : ℝ), 1] [(1 : ℝ), 2]).rSquared = JSNum.nan := by
  have hr : List.range 2 = [0, 1] := rfl
  norm_num [jsLinearRegression, jsRegressionSlope, jsRegressionIntercept, jsSsResidual,
    regressionSumXY, ssTotal, jsDiv, jsSub, jsMul, jsAdd, jsMax, hr]

/-- Claim C7 (code bug): the claim says the fit marked isBestFit attains the
maximum rSquared among the eligible fits.  On the observations
(1,1), (2,2), (3,3) the catalog-first O(1) class is eligible (its transform
is finite everywhere) yet regresses the constant sizes [1, 1, 1] against the
non-constant times, so its rSquared is Math.max(0, NaN) = NaN in the double
model, while the eligible O(n) fit has rSquared 1; a NaN rSquared makes every
comparator result NaN, which the sort coerces to zero, so the O(1) entry is
left at the head by a stable engine sort and marked best without attaining
the maximum. -/
theorem fitAllComplexities_nan_bug :
    jsFitRSquared [⟨1, 1⟩, ⟨2, 2⟩, ⟨3, 3⟩] "O(1)" = some JSNum.nan ∧
      jsFitRSquared [⟨1, 1⟩, ⟨2, 2⟩, ⟨3, 3⟩] "O(n)" = some (JSNum.num 1) := by
  have hc1 : complexityClassDef "O(1)" =
      ⟨"O(1)", "Constant", fun _ => 1, fun _ => true, "#10b981"⟩ := rfl
  have hcn : complexityClassDef "O(n)" =
      ⟨"O(n)", "Linear", fun n => n, fun _ => true, "#8b5cf6"⟩ := rfl
  have hr : List.range 3 = [0, 1, 2] := rfl
  constructor
  · norm_num [jsFitRSquared, hc1, jsLinearRegression, jsRegressionSlope, jsRegressionIntercept,
      jsSsResidual, regressionSumXY, ssTotal, jsDiv, jsSub, jsMul, jsAdd, jsMax, hr]
  · norm_num [jsFitRSquared, hcn, jsLinearRegression, jsRegressionSlope, jsRegressionIntercept,
      jsSsResidual, regressionSumXY, ssTotal, jsDiv, jsSub, jsMul, jsAdd, jsMax, hr]

/-- Membership in the matched-pair index list, unfolded to the semantic
matched-pair condition: an ordered pair of in-range distinct group indices
where the first group lacks the treatment, the second has it, and every other
treatment agrees. -/
theorem mem_matchedPairIdx (groups : List Group) (names : List String) (T : String) (i j : ℕ) :
    (i, j) ∈ matchedPairIdx groups names T ↔
      (i < groups.length ∧ j < groups.length ∧ i ≠ j ∧
        (groups.getD i dummyGroup).hasTreatment T = false ∧
        (groups.getD j dummyGroup).hasTreatment T = true ∧
        ∀ t ∈ names, t ≠ T →
          (groups.getD i dummyGroup).hasTreatment t =
            (groups.getD j dummyGroup).hasTreatment t) := by
  simp only [matchedPairIdx, List.mem_bind, List.mem_map, List.mem_filter, List.mem_range,
    otherTreatmentsSame, List.all_eq_true, Bool.and_eq_true, bne_iff_ne, ne_eq,
    Bool.not_eq_true', Bool.or_eq_true, beq_iff_eq, Prod.mk.injEq]
  constructor
  · rintro ⟨a, ha, b, ⟨hb, ⟨⟨hab, hTi⟩, hTj⟩, hall⟩, rfl, rfl⟩
    refine ⟨ha, hb, hab, hTi, hTj, ?_⟩
    intro t ht hne
    rcases hall t ht with h | h
    · exact absurd h hne
    · exact h
  · rintro ⟨h1, h2, h3, h4, h5, h6⟩
    refine ⟨i, h1, j, ⟨h2, ⟨⟨h3, h4⟩, h5⟩, ?_⟩, rfl, rfl⟩
    intro t ht
    by_cases ht' : t = T
    · exact Or.inl ht'
    · exact Or.inr (h6 t ht ht')

/-- Claim C5: for a treatment T with at least one matched pair, the analysis
emits the treatment entry for T (which appears in the treatments list), the
matched pairs are exactly the ordered group pairs differing in T alone, and
that entry has method pairwise, confounded false, and effect equal to the
unweighted arithmetic mean of the per-pair mean differences
mean(with) - mean(without) over all matched pairs. -/
theorem analyzeMultiVariate_pairwise (groups : List Group) (names : List String) (T : String)
    (hT : T ∈ names) (hpair : matchedPairIdx groups names T ≠ []) :
    treatmentEffectFor groups names T ∈ (analyzeMultiVariate groups names).treatments ∧
      (∀ i j : ℕ, (i, j) ∈ matchedPairIdx groups names T ↔
        (i < groups.length ∧ j < groups.length ∧ i ≠ j ∧
          (groups.getD i dummyGroup).hasTreatment T = false ∧
          (groups.getD j dummyGroup).hasTreatment T = true ∧
          ∀ t ∈ names, t ≠ T →
            (groups.getD i dummyGroup).hasTreatment t =
              (groups.getD j dummyGroup).hasTreatment t)) ∧
      (treatmentEffectFor groups names T).method = some "pairwise" ∧
      (treatmentEffectFor groups names T).confounded = false ∧
      (treatmentEffectFor groups names T).effect =
        some (mean ((matchedPairIdx groups names T).map (fun p =>
          mean (groups.getD p.2 dummyGroup).data - mean (groups.getD p.1 dummyGroup).data))) := by
  have hpos : 0 < (matchedPairIdx groups names T).length := List.length_pos.mpr hpair
  have hval : (treatmentEffectFor groups names T).method = some "pairwise" ∧
      (treatmentEffectFor groups names T).confounded = false ∧
      (treatmentEffectFor groups names T).effect =
        some (mean ((matchedPairIdx groups names T).map (fun p =>
          mean (groups.getD p.2 dummyGroup).data - mean (groups.getD p.1 dummyGroup).data))) := by
    simp only [treatmentEffectFor]
    rw [if_pos hpos]
    exact ⟨rfl, rfl, rfl⟩
  exact ⟨List.mem_map_of_mem _ hT, fun i j => mem_matchedPairIdx groups names T i j,
    hval.1, hval.2.1, hval.2.2⟩

/-- Witness for claim C5 on two groups that differ exactly in treatment x. -/
theorem analyzeMultiVariate_pairwise_witness :
    ("x" ∈ ["x"]) ∧
      matchedPairIdx
        [⟨"base", [("x", false)], [1, 2]⟩, ⟨"treat", [("x", true)], [3, 5]⟩] ["x"] "x" ≠ [] ∧
      (treatmentEffectFor
        [⟨"base", [("x", false)], [1, 2]⟩, ⟨"treat", [("x", true)], [3, 5]⟩] ["x"] "x").method =
          some "pairwise" ∧
      (treatmentEffectFor
        [⟨"base", [("x", false)], [1, 2]⟩, ⟨"treat", [("x", true)], [3, 5]⟩] ["x"] "x").confounded =
          false := by
  have h1 : ("x" : String) ∈ ["x"] := by decide
  have h2 : matchedPairIdx
      [⟨"base", [("x", false)], [1, 2]⟩, ⟨"treat", [("x", true)], [3, 5]⟩] ["x"] "x" ≠ [] := by
    decide
  have h := analyzeMultiVariate_pairwise
    [⟨"base", [("x", false)], [1, 2]⟩, ⟨"treat", [("x", true)], [3, 5]⟩] ["x"] "x" h1 h2
  exact ⟨h1, h2, h.2.2.1, h.2.2.2.1⟩

/-- Claim C6: for a treatment T with zero matched pairs, the analysis emits
the treatment entry for T; when both pooled partitions hold at least two data
points the entry is the marginal estimate over the pooled partitions with
method marginal and confounded true, otherwise the entry carries
insufficient true and no effect estimate — and exactly one of a computed
effect or the insufficient flag holds. -/
theorem analyzeMultiVariate_marginal (groups : List Group) (names : List String) (T : String)
    (hT : T ∈ names) (hnone : matchedPairIdx groups names T = []) :
    treatmentEffectFor groups names T ∈ (analyzeMultiVariate groups names).treatments ∧
      (2 ≤ ((groups.filter (fun g => g.hasTreatment T)).bind (fun g => g.data)).length ∧
          2 ≤ ((groups.filter (fun g => !g.hasTreatment T)).bind (fun g => g.data)).length →
        (treatmentEffectFor groups names T).method = some "marginal" ∧
        (treatmentEffectFor groups names T).confounded = true ∧
        (treatmentEffectFor groups names T).insufficient = false ∧
        (treatmentEffectFor groups names T).effect =
          some (mean ((groups.filter (fun g => g.hasTreatment T)).bind (fun g => g.data)) -
            mean ((groups.filter (fun g => !g.hasTreatment T)).bind (fun g => g.data)))) ∧
      (¬(2 ≤ ((groups.filter (fun g => g.hasTreatment T)).bind (fun g => g.data)).length ∧
          2 ≤ ((groups.filter (fun g => !g.hasTreatment T)).bind (fun g => g.data)).length) →
        (treatmentEffectFor groups names T).insufficient = true ∧
        (treatmentEffectFor groups names T).effect = none ∧
        (treatmentEffectFor groups names T).method = none) ∧
      (((treatmentEffectFor groups names T).insufficient = false ∧
          (treatmentEffectFor groups names T).effect ≠ none) ∨
        ((treatmentEffectFor groups names T).insufficient = true ∧
          (treatmentEffectFor groups names T).effect = none)) := by
  have hneg : ¬ 0 < (matchedPairIdx groups names T).length := by
    rw [hnone]
    simp
  have hunfold : treatmentEffectFor groups names T =
      (if 2 ≤ ((groups.filter (fun g => g.hasTreatment T)).bind (fun g => g.data)).length ∧
          2 ≤ ((groups.filter (fun g => !g.hasTreatment T)).bind (fun g => g.data)).length then
        { name := T,
          effect := some (mean ((groups.filter (fun g => g.hasTreatment T)).bind (fun g => g.data)) -
            mean ((groups.filter (fun g => !g.hasTreatment T)).bind (fun g => g.data))),
          percentEffect := some (percentageChange
            (mean ((groups.filter (fun g => !g.hasTreatment T)).bind (fun g => g.data)))
            (mean ((groups.filter (fun g => g.hasTreatment T)).bind (fun g => g.data)))),
          withMean := some (mean ((groups.filter (fun g => g.hasTreatment T)).bind (fun g => g.data))),
          withoutMean := some (mean ((groups.filter (fun g => !g.hasTreatment T)).bind (fun g => g.data))),
          withN := ((groups.filter (fun g => g.hasTreatment T)).bind (fun g => g.data)).length,
          withoutN := ((groups.filter (fun g => !g.hasTreatment T)).bind (fun g => g.data)).length,
          pValue := some (welchTTest
            ((groups.filter (fun g => !g.hasTreatment T)).bind (fun g => g.data))
            ((groups.filter (fun g => g.hasTreatment T)).bind (fun g => g.data))).pValue,
          isSignificant := decide ((welchTTest
            ((groups.filter (fun g => !g.hasTreatment T)).bind (fun g => g.data))
            ((groups.filter (fun g => g.hasTreatment T)).bind (fun g => g.data))).pValue < 0.05),
          interpretation := some (interpretPValue (welchTTest
            ((groups.filter (fun g => !g.hasTreatment T)).bind (fun g => g.data))
            ((groups.filter (fun g => g.hasTreatment T)).bind (fun g => g.data))).pValue),
          pairCount := none, method := some "marginal",
          confounded := true, insufficient := false }
      else
        { name := T, effect := none, percentEffect := none,
          withMean := none, withoutMean := none,
          withN := ((groups.filter (fun g => g.hasTreatment T)).bind (fun g => g.data)).length,
          withoutN := ((groups.filter (fun g => !g.hasTreatment T)).bind (fun g => g.data)).length,
          pValue := none, isSignificant := false, interpretation := none,
          pairCount := none, method := none, confounded := false, insufficient := true }) := by
    simp only [treatmentEffectFor]
    rw [if_neg hneg]
  refine ⟨List.mem_map_of_mem _ hT, ?_, ?_, ?_⟩
  · intro hcond
    rw [hunfold, if_pos hcond]
    exact ⟨rfl, rfl, rfl, rfl⟩
  · intro hcond
    rw [hunfold, if_neg hcond]
    exact ⟨rfl, rfl, rfl⟩
  · by_cases hcond : 2 ≤ ((groups.filter (fun g => g.hasTreatment T)).bind (fun g => g.data)).length ∧
        2 ≤ ((groups.filter (fun g => !g.hasTreatment T)).bind (fun g => g.data)).length
    · left
      rw [hunfold, if_pos hcond]
      exact ⟨rfl, Option.some_ne_none _⟩
    · right
      rw [hunfold, if_neg hcond]
      exact ⟨rfl, rfl⟩

/-- Witness for claim C6 on two groups whose treatments x and y are fully
confounded, so treatment x has no matched pair and both pooled partitions
hold two data points: the marginal branch fires. -/
theorem analyzeMultiVariate_marginal_witness :
    ("x" ∈ ["x", "y"]) ∧
      matchedPairIdx
        [⟨"g1", [("x", true), ("y", false)], [1, 2]⟩,
         ⟨"g2", [("x", false), ("y", true)], [3, 4]⟩] ["x", "y"] "x" = [] ∧
      (2 ≤ (([⟨"g1", [("x", true), ("y", false)], [1, 2]⟩,
            ⟨"g2", [("x", false), ("y", true)], [3, 4]⟩].filter
              (fun g : Group => g.hasTreatment "x")).bind (fun g => g.data)).length ∧
        2 ≤ (([⟨"g1", [("x", true), ("y", false)], [1, 2]⟩,
            ⟨"g2", [("x", false), ("y", true)], [3, 4]⟩].filter
              (fun g : Group => !g.hasTreatment "x")).bind (fun g => g.data)).length) ∧
      (treatmentEffectFor
        [⟨"g1", [("x", true), ("y", false)], [1, 2]⟩,
         ⟨"g2", [("x", false), ("y", true)], [3, 4]⟩] ["x", "y"] "x").method = some "marginal" ∧
      (treatmentEffectFor
        [⟨"g1", [("x", true), ("y", false)], [1, 2]⟩,
         ⟨"g2", [("x", false), ("y", true)], [3, 4]⟩] ["x", "y"] "x").confounded = true ∧
      (treatmentEffectFor
        [⟨"g1", [("x", true), ("y", false)], [1, 2]⟩,
         ⟨"g2", [("x", false), ("y", true)], [3, 4]⟩] ["x", "y"] "x").insufficient = false := by
  have h1 : ("x" : String) ∈ ["x", "y"] := by decide
  have h2 : matchedPairIdx
      [⟨"g1", [("x", true), ("y", false)], [1, 2]⟩,
       ⟨"g2", [("x", false), ("y", true)], [3, 4]⟩] ["x", "y"] "x" = [] := by decide
  have h3 : (2 ≤ (([⟨"g1", [("x", true), ("y", false)], [1, 2]⟩,
        ⟨"g2", [("x", false), ("y", true)], [3, 4]⟩].filter
          (fun g : Group => g.hasTreatment "x")).bind (fun g => g.data)).length ∧
      2 ≤ (([⟨"g1", [("x", true), ("y", false)], [1, 2]⟩,
        ⟨"g2", [("x", false), ("y", true)], [3, 4]⟩].filter
          (fun g : Group => !g.hasTreatment "x")).bind (fun g => g.data)).length) := by decide
  have h := analyzeMultiVariate_marginal
    [⟨"g1", [("x", true), ("y", false)], [1, 2]⟩,
     ⟨"g2", [("x", false), ("y", true)], [3, 4]⟩] ["x", "y"] "x" h1 h2
  exact ⟨h1, h2, h3, (h.2.1 h3).1, (h.2.1 h3).2.1, (h.2.1 h3).2.2.1⟩

/-- Claim C10: analyzeComplexity does not mutate the caller's observations
array: with the array store made explicit, the array at the caller's address
is unchanged after the call — the sort operates on a freshly allocated copy —
and the returned result is the pure function of the input value. -/
theorem analyzeComplexity_preserves_input (h : JSHeap) (r : ℕ) (hr : r < h.next) :
    heapRead (analyzeComplexityHeap h r).1 r = heapRead h r ∧
      (analyzeComplexityHeap h r).2 = analyzeComplexityPure (heapRead h r) := by
  have hne : r ≠ h.next := Nat.ne_of_lt hr
  constructor
  · simp [analyzeComplexityHeap, heapRead, heapWrite, heapAlloc, hne]
  · simp [analyzeComplexityHeap, analyzeComplexityPure, heapRead, heapWrite, heapAlloc]

/-- Witness for claim C10 on a one-array store. -/
theorem analyzeComplexity_preserves_input_witness :
    (0 : ℕ) < (⟨fun _ => [], 1⟩ : JSHeap).next ∧
      (heapRead (analyzeComplexityHeap ⟨fun _ => [], 1⟩ 0).1 0 =
          heapRead (⟨fun _ => [], 1⟩ : JSHeap) 0 ∧
        (analyzeComplexityHeap ⟨fun _ => [], 1⟩ 0).2 =
          analyzeComplexityPure (heapRead (⟨fun _ => [], 1⟩ : JSHeap) 0)) :=
  ⟨by decide, analyzeComplexity_preserves_input ⟨fun _ => [], 1⟩ 0 (by decide)⟩

end Stats
